import Mathlib

/-!
# BaitBiter — shallow embedding

Shallow embedding of the two near-duplicate classes of the repository:
`bait_biter/_clickbait_video.py` (normalized transcript mode) and
`src/clickbait_video.py` (raw transcript mode). Both define `ClickbaitVideo`
with stages: video-id extraction, title fetch (oEmbed HTTP GET), transcript
fetch (caption segments joined by the text formatter), question synthesis
(completion call), and an on-demand answer operation (completion call).

External collaborators (pytube's extractor, the HTTP client, the transcript
API, the completion API, and the NLTK tokenizer/stemmer/stopword list) are
black boxes, modelled as components of an explicit environment `Env`.
Python exceptions become `Except Err`; every network call is recorded in an
explicit trace of `Call` events.
-/

/-- Error taxonomy of the spec; Python exception classes are mapped onto it:
transport exceptions from the HTTP client become `upstreamUnavailable`,
JSON-decode and missing-key errors from the title lookup become
`malformedResponse`, a missing caption track becomes `transcriptUnavailable`,
and completion-API errors become `completionFailed`. -/
inductive Err where
  | invalidInput
  | upstreamUnavailable
  | malformedResponse
  | transcriptUnavailable
  | completionFailed
  deriving DecidableEq, Repr

/-- Argument record of `openai.Completion.create(model=…, prompt=…, max_tokens=…)`. -/
structure CompletionRequest where
  model : String
  prompt : String
  max_tokens : Nat
  deriving DecidableEq, Repr

/-- One outbound network call, as recorded in the trace. -/
inductive Call where
  | httpGet (url : String)
  | transcriptFetch (video_id : String)
  | completion (req : CompletionRequest)
  deriving DecidableEq, Repr

/-- An HTTP response as `requests.get` returns it: a status code and a body
that may or may not parse as a JSON object (modelled as a string-to-string
association list; `none` models a `JSONDecodeError` from `.json()`). -/
structure HttpResponse where
  status : Nat
  body_json : Option (List (String × String))
  deriving DecidableEq, Repr

/-- The environment of external collaborators. `completion` takes the number
of completion calls made so far, so that distinct calls may observe distinct
model outputs (the upstream model is not deterministic). `http_get` returns
`none` on a transport failure. -/
structure Env where
  video_id : String → Except Err String
  http_get : String → Option HttpResponse
  transcript_api : String → Except Err (List String)
  completion : Nat → CompletionRequest → Except Err String
  word_tokenize : String → List String
  porter_stem : String → String
  stop_words : List String

/-- The session entity: the attributes `__init__` stores on `self`. -/
structure ClickbaitVideo where
  yt_url : String
  api_key : String
  question_model : String
  answer_model_type : String
  video_id : String
  title : String
  transcript : String
  question : String
  deriving DecidableEq, Repr

/-! ## Pure text pipeline (`_get_transcript` / `_get_edited_transcript`) -/

/-- `TextFormatter().format_transcript`: joins the caption segments with
newlines (behaviour of the youtube-transcript-api text formatter). -/
def format_transcript (segs : List String) : String :=
  String.intercalate "\n" segs

/-- Python's `str.replace(old, new)` for a single-character pattern. -/
def replaceChar (old new : Char) (s : String) : String :=
  String.mk (s.data.map (fun c => if c = old then new else c))

/-- `.replace("\n", " ")`. -/
def replace_nl (s : String) : String := replaceChar '\n' ' ' s

/-- The non-breaking-space character `"\xa0"`. -/
def nbsp : Char := '\u00A0'

/-- `.replace("\xa0", " ")`. -/
def replace_nbsp (s : String) : String := replaceChar nbsp ' ' s

/-- Raw mode (`src/clickbait_video.py`, `_get_transcript`): format the
segments and replace newlines with spaces; nothing else. -/
def get_transcript (segs : List String) : String :=
  replace_nl (format_transcript segs)

/-- The string handed to `word_tokenize` in normalized mode: the formatted
transcript with `"\n"` and `"\xa0"` both replaced by spaces. -/
def normalized_source (segs : List String) : String :=
  replace_nbsp (replace_nl (format_transcript segs))

/-- Python's `str.lower()`, as a character-wise map (the tokens at hand are
ASCII, where the two coincide). -/
def pyLower (s : String) : String := String.mk (s.data.map Char.toLower)

/-- Normalized mode (`bait_biter/_clickbait_video.py`,
`_get_edited_transcript`): tokenize, stem each token, drop tokens whose
lower-cased form is a stopword, and rejoin with single spaces. -/
def get_edited_transcript (tokenize : String → List String)
    (stem : String → String) (stop_words : List String)
    (segs : List String) : String :=
  let tokenized_transcript := tokenize (normalized_source segs)
  let stemmed_transcript := tokenized_transcript.map stem
  let filtered_transcript := String.intercalate " "
    (stemmed_transcript.filter (fun word => !(stop_words.contains (pyLower word))))
  filtered_transcript

/-- The list of tokens surviving the normalized pipeline (the list that
`_get_edited_transcript` joins with spaces). -/
def normalized_tokens (tokenize : String → List String)
    (stem : String → String) (stop_words : List String)
    (segs : List String) : List String :=
  ((tokenize (normalized_source segs)).map stem).filter
    (fun word => !(stop_words.contains (pyLower word)))

/-- Number of whitespace-separated words of a string (maximal nonempty runs
of non-space characters). -/
def wordsAux : List Char → List Char → List (List Char)
  | [], acc => if acc.isEmpty then [] else [acc.reverse]
  | c :: cs, acc =>
    if c = ' ' then
      if acc.isEmpty then wordsAux cs [] else acc.reverse :: wordsAux cs []
    else wordsAux cs (c :: acc)

/-- Word count of a string, splitting on spaces. -/
def wordCount (s : String) : Nat := (wordsAux s.data []).length

-- scratch sanity checks
example : get_transcript ["hello world"] = "hello world" := rfl
example : get_transcript ["a", "b"] = "a b" := by decide
example : wordCount "x , y" = 3 := by decide
example : normalized_source ["a\u00A0b"] = "a b" := by decide
example : get_transcript ["a\u00A0b"] = "a\u00A0b" := by decide

/-! ## Effectful operations with explicit call traces -/

/-- The oEmbed URL built in `_fetch_title`. -/
def oembed_url (video_id : String) : String :=
  "https://www.youtube.com/oembed?url=https://www.youtube.com/watch?v=" ++
    video_id ++ "&format=json"

/-- `data["title"]` on the parsed JSON object: `none` models a `KeyError`. -/
def json_get (data : List (String × String)) (key : String) : Option String :=
  (data.find? (fun p => p.1 = key)).map (fun p => p.2)

/-- `_fetch_title` (identical in both files): one HTTP GET on the oEmbed URL,
then `response.json()["title"]`. The status code of the response is never
inspected. A transport failure propagates as `upstreamUnavailable`; a body
that does not parse as JSON, or parses without a `title` key, raises and is
modelled as `malformedResponse`. -/
def fetch_title (env : Env) (video_id : String) : Except Err String × List Call :=
  (match env.http_get (oembed_url video_id) with
   | none => .error .upstreamUnavailable
   | some response =>
     match response.body_json with
     | none => .error .malformedResponse
     | some data =>
       match json_get data "title" with
       | none => .error .malformedResponse
       | some t => .ok t,
   [Call.httpGet (oembed_url video_id)])

/-- The transcript stage of construction: one caption-track fetch, then the
pure text pipeline of the variant (`normalized = true` for
`bait_biter/_clickbait_video.py`, `false` for `src/clickbait_video.py`). -/
def transcript_stage (normalized : Bool) (env : Env) (video_id : String) :
    Except Err String × List Call :=
  (match env.transcript_api video_id with
   | .error e => .error e
   | .ok segs =>
     .ok (if normalized then
            get_edited_transcript env.word_tokenize env.porter_stem env.stop_words segs
          else get_transcript segs),
   [Call.transcriptFetch video_id])

/-- Modelled from the spec: the prompt module (`bait_biter/_prompts.py` /
`src/prompts.py`) is not in the sources; per the spec, the title-to-question
template instructs the model to state, as a single question, what a reader
wants answered by watching a video with the given title. -/
def question_from_title_prompt (title : String) : String :=
  "State, as a single question, what the reader wants answered by watching" ++
    " this video titled " ++ title

/-- Modelled from the spec: the transcript-plus-question-to-answer template
instructs the model to answer the question using only the transcript as
grounding context. -/
def answer_question_prompt (transcript question : String) : String :=
  "Using only the following transcript as grounding context, answer the" ++
    " question. Transcript: " ++ transcript ++ " Question: " ++ question

/-- The default of the `gpt_model` parameter of
`_generate_question_from_title`, used because `__init__` calls the method
with no argument. -/
def generate_question_default_model : String := "text-davinci-003"

/-- `_generate_question_from_title`: one completion call with the given
model, the title prompt, and `max_tokens=200`; `k` counts the completion
calls already made. -/
def generate_question_from_title (env : Env) (k : Nat) (gpt_model title : String) :
    Except Err String × List Call :=
  (env.completion k ⟨gpt_model, question_from_title_prompt title, 200⟩,
   [Call.completion ⟨gpt_model, question_from_title_prompt title, 200⟩])

/-- `__init__` of either class (`normalized` selects the variant):
extract the video id, fetch the title, fetch and process the transcript,
synthesize the question; each stage aborts construction on error. The second
component is the trace of outbound calls made before returning. -/
def init (normalized : Bool) (env : Env)
    (yt_url api_key question_model answer_model_type : String) :
    Except Err ClickbaitVideo × List Call :=
  match env.video_id yt_url with
  | .error e => (.error e, [])
  | .ok vid =>
    match (fetch_title env vid).1 with
    | .error e => (.error e, (fetch_title env vid).2)
    | .ok title =>
      match (transcript_stage normalized env vid).1 with
      | .error e => (.error e, (fetch_title env vid).2 ++ (transcript_stage normalized env vid).2)
      | .ok transcript =>
        match (generate_question_from_title env 0 generate_question_default_model title).1 with
        | .error e =>
          (.error e,
           (fetch_title env vid).2 ++ (transcript_stage normalized env vid).2 ++
             (generate_question_from_title env 0 generate_question_default_model title).2)
        | .ok question =>
          (.ok ⟨yt_url, api_key, question_model, answer_model_type, vid, title,
                transcript, question⟩,
           (fetch_title env vid).2 ++ (transcript_stage normalized env vid).2 ++
             (generate_question_from_title env 0 generate_question_default_model title).2)

/-- `answer_title_question`: one completion call with the stored answer
model, the answer prompt over the stored transcript and question, and
`max_tokens=100`. The method assigns nothing to `self`; the session it
leaves behind is returned unchanged as the third component. -/
def answer_title_question (env : Env) (k : Nat) (self : ClickbaitVideo) :
    Except Err String × List Call × ClickbaitVideo :=
  (env.completion k
     ⟨self.answer_model_type, answer_question_prompt self.transcript self.question, 100⟩,
   [Call.completion
     ⟨self.answer_model_type, answer_question_prompt self.transcript self.question, 100⟩],
   self)

/-- Default model arguments of `bait_biter/_clickbait_video.py.__init__`
(the normalized-mode class). -/
def bait_biter_default_question_model : String := "text-davinci-003"

/-- Default of `answer_model_type` in `bait_biter/_clickbait_video.py`. -/
def bait_biter_default_answer_model_type : String := "text-davinci-003"

/-- Default of `question_model` in `src/clickbait_video.py` (raw mode). -/
def src_default_question_model : String := "text-davinci-003"

/-- Default of `answer_model_type` in `src/clickbait_video.py` (raw mode). -/
def src_default_answer_model_type : String := "text-curie-001"

/-! ## Concrete environments for witnesses and counterexamples -/

/-- An environment where every stage succeeds: video id `"abc"`, title
`"T"`, one caption segment, every completion answers `"out"`. -/
def envOK : Env where
  video_id := fun _ => .ok "abc"
  http_get := fun _ => some ⟨200, some [("title", "T")]⟩
  transcript_api := fun _ => .ok ["hello world"]
  completion := fun _ _ => .ok "out"
  word_tokenize := fun s => [s]
  porter_stem := fun s => s
  stop_words := []

/-- Like `envOK` but the video has no captions. -/
def envNC : Env := { envOK with transcript_api := fun _ => .error .transcriptUnavailable }

/-- Like `envOK` but the oEmbed lookup answers HTTP 404 with a JSON body
that still carries a `title` field. -/
def env404 : Env := { envOK with http_get := fun _ => some ⟨404, some [("title", "T")]⟩ }

/-- Like `envOK` but the completion output depends on how many completion
calls were made before. -/
def envDiff : Env :=
  { envOK with completion := fun k _ => .ok (if k = 0 then "first" else "second") }

/-- The session `init` builds over `envOK` in raw mode. -/
def sessionOK : ClickbaitVideo :=
  ⟨"u", "k", "q", "a", "abc", "T", "hello world", "out"⟩

/-- The trace `init` leaves over `envOK`. -/
def traceOK : List Call :=
  [Call.httpGet (oembed_url "abc"), Call.transcriptFetch "abc",
   Call.completion ⟨"text-davinci-003", question_from_title_prompt "T", 200⟩]

example : init false envOK "u" "k" "q" "a" = (.ok sessionOK, traceOK) := rfl
example : (init false envNC "u" "k" "q" "a").1 = .error .transcriptUnavailable := rfl
example : (fetch_title env404 "abc").1 = .ok "T" := rfl

/-- Representative sample of the fixed English stopword list (NLTK's
`stopwords.words("english")`), for concrete instantiations. -/
def english_stopwords : List String :=
  ["i", "me", "my", "we", "our", "you", "he", "she", "it", "they", "them",
   "what", "which", "who", "this", "that", "am", "is", "are", "was", "were",
   "be", "been", "a", "an", "the", "and", "but", "if", "or", "of", "at",
   "by", "for", "with", "to", "from", "in", "out", "on", "off", "not",
   "so", "too", "very"]

/-- A tokenizer behaving as NLTK's `word_tokenize` does on `"x,y"`:
punctuation is split into separate tokens. -/
def cexTok : String → List String :=
  fun s => if s = "x,y" then ["x", ",", "y"] else [s]

/-- After `replaceChar old new`, the replaced character is gone (when the
replacement differs from it). -/
theorem replaceChar_no_old (old new : Char) (h : new ≠ old) (s : String) :
    ∀ c ∈ (replaceChar old new s).data, c ≠ old := by
  intro c hc
  rcases List.mem_map.1 hc with ⟨a, _, rfl⟩
  by_cases ha : a = old
  · simpa [ha] using h
  · simp only [ha, if_false, if_neg ha]
    exact ha

/-- `replaceChar old new` introduces no occurrence of a character `d` that
was absent, as long as the replacement is not `d`. -/
theorem replaceChar_keeps_missing (old new d : Char) (hnew : new ≠ d) (s : String)
    (h : ∀ c ∈ s.data, c ≠ d) : ∀ c ∈ (replaceChar old new s).data, c ≠ d := by
  intro c hc
  rcases List.mem_map.1 hc with ⟨a, ha, rfl⟩
  by_cases h1 : a = old
  · simpa [h1] using hnew
  · simpa [h1] using h a ha

/-- C1: in normalized mode, the transcript computed at construction is the
tokenization of the joined caption string, with the stemming transform
applied to every token, tokens whose lower-cased form is in the stopword
set discarded, and the survivors rejoined with single spaces; the surviving
tokens are a sublist of the stemmed token list, so the original token order
is preserved. -/
theorem edited_transcript_is_stem_filter_join
    (tokenize : String → List String) (stem : String → String)
    (stop_words : List String) (segs : List String) :
    get_edited_transcript tokenize stem stop_words segs =
      String.intercalate " "
        (((tokenize (normalized_source segs)).map stem).filter
          (fun word => !(stop_words.contains (pyLower word))))
    ∧ List.Sublist
        (((tokenize (normalized_source segs)).map stem).filter
          (fun word => !(stop_words.contains (pyLower word))))
        ((tokenize (normalized_source segs)).map stem) :=
  ⟨rfl, List.filter_sublist _⟩

/-- C7, counterexample: on the caption segment `"x,y"` with a tokenizer that
(like NLTK's `word_tokenize`) splits punctuation into separate tokens, the
identity stemmer and the English stopword list, raw mode yields one word
(`"x,y"`) while normalized mode yields three (`"x , y"`): normalized mode
produced more words than raw mode from the same source. -/
theorem normalized_word_count_counterexample :
    wordCount (get_transcript ["x,y"]) = 1
    ∧ wordCount (get_edited_transcript cexTok (fun s => s) english_stopwords ["x,y"]) = 3
    ∧ wordCount (get_transcript ["x,y"])
        < wordCount (get_edited_transcript cexTok (fun s => s) english_stopwords ["x,y"]) := by
  decide

/-- C7, amended: the normalized pipeline never keeps more tokens than the
tokenizer produced from the joined string — stemming is applied tokenwise
and stopword removal only discards — so at the token level normalized mode
never increases the count; the output string is exactly the surviving
tokens rejoined. (The whitespace word count of the output string can still
exceed raw mode's, because the tokenizer may split punctuation off into
separate tokens.) -/
theorem normalized_token_count_le
    (tokenize : String → List String) (stem : String → String)
    (stop_words : List String) (segs : List String) :
    get_edited_transcript tokenize stem stop_words segs =
      String.intercalate " " (normalized_tokens tokenize stem stop_words segs)
    ∧ (normalized_tokens tokenize stem stop_words segs).length
        ≤ (tokenize (normalized_source segs)).length := by
  refine ⟨rfl, ?_⟩
  calc (normalized_tokens tokenize stem stop_words segs).length
      ≤ ((tokenize (normalized_source segs)).map stem).length :=
        List.length_filter_le _ _
    _ = (tokenize (normalized_source segs)).length := List.length_map _ _

/-- C9, counterexample: raw mode does not replace non-breaking spaces. On
the single caption segment `"a\xa0b"`, raw mode returns `"a\xa0b"`
unchanged, which differs from the newline-and-nbsp-replaced join `"a b"`
that the claim prescribes for both variants. -/
theorem raw_transcript_keeps_nbsp_counterexample :
    get_transcript ["a b"] = "a b"
    ∧ normalized_source ["a b"] = "a b"
    ∧ get_transcript ["a b"] ≠ normalized_source ["a b"] := by
  decide

/-- C9, amended: both variants join the caption segments and replace every
newline with a space — the raw-mode result contains no newline and is the
newline-replaced join as-is — but only normalized mode additionally
replaces non-breaking spaces (its tokenizer input contains neither
newlines nor non-breaking spaces). -/
theorem transcript_join_replacement_characterization (segs : List String) :
    get_transcript segs = replace_nl (format_transcript segs)
    ∧ (∀ c ∈ (get_transcript segs).data, c ≠ '\n')
    ∧ (∀ c ∈ (normalized_source segs).data, c ≠ '\n' ∧ c ≠ nbsp) := by
  refine ⟨rfl, ?_, ?_⟩
  · exact replaceChar_no_old '\n' ' ' (by decide) _
  · intro c hc
    have hc2 : c ∈ (replaceChar nbsp ' ' (replaceChar '\n' ' ' (format_transcript segs))).data := hc
    exact ⟨replaceChar_keeps_missing nbsp ' ' '\n' (by decide) _
            (replaceChar_no_old '\n' ' ' (by decide) _) c hc2,
          replaceChar_no_old nbsp ' ' (by decide) _ c hc2⟩

/-- The two tiers of completion model the spec distinguishes. -/
inductive ModelTier where
  | smaller
  | larger
  deriving DecidableEq, Repr

/-- Modelled from the spec: `"text-davinci-003"` is "the largest/most
capable model tier"; the other model name in play, `"text-curie-001"`,
is a smaller/cheaper tier. -/
def model_tier (model : String) : ModelTier :=
  if model = "text-davinci-003" then .larger else .smaller

/-- C5, counterexample: it is not the case that the normalized-mode default
answer model is the smaller tier and the raw-mode default the larger one:
the normalized-mode class defaults to `"text-davinci-003"` and the raw-mode
class to `"text-curie-001"`. -/
theorem default_answer_model_tiers_counterexample :
    ¬ (model_tier bait_biter_default_answer_model_type = ModelTier.smaller
       ∧ model_tier src_default_answer_model_type = ModelTier.larger) := by
  decide

/-- C5, amended: the default answer-model tiers are the other way around:
the normalized-mode variant defaults to the larger/most capable tier
(`"text-davinci-003"`) and the raw-mode variant to the smaller/cheaper tier
(`"text-curie-001"`). -/
theorem default_answer_model_tiers_swapped :
    model_tier bait_biter_default_answer_model_type = ModelTier.larger
    ∧ bait_biter_default_answer_model_type = "text-davinci-003"
    ∧ model_tier src_default_answer_model_type = ModelTier.smaller
    ∧ src_default_answer_model_type = "text-curie-001" := by
  decide

/-- A response status is successful when it lies in the 2xx range. -/
def is2xx (status : Nat) : Prop := 200 ≤ status ∧ status < 300

/-- C6, counterexample: the title fetch never inspects the HTTP status. An
oEmbed response with status 404 whose JSON body still carries a `title`
field makes `_fetch_title` return that title instead of failing with
`UpstreamUnavailable` as the claim requires for every non-2xx response. -/
theorem fetch_title_ignores_status_counterexample :
    env404.http_get (oembed_url "abc") = some ⟨404, some [("title", "T")]⟩
    ∧ ¬ is2xx 404
    ∧ (fetch_title env404 "abc").1 = .ok "T"
    ∧ (Except.ok "T" : Except Err String) ≠ .error .upstreamUnavailable := by
  refine ⟨rfl, by simp [is2xx], rfl, by simp⟩

/-- C6, amended: the title fetch fails with `UpstreamUnavailable` exactly on
transport failure; the response status is never inspected. Whenever a
response arrives, the result depends on its body alone: an undecodable body
or one without a `title` field gives `MalformedResponse`, and a body with a
`title` field yields that field's string value even for non-2xx statuses.
Exactly one HTTP GET is issued. -/
theorem fetch_title_error_characterization (env : Env) (vid : String) :
    (env.http_get (oembed_url vid) = none →
        (fetch_title env vid).1 = .error .upstreamUnavailable)
    ∧ (∀ response, env.http_get (oembed_url vid) = some response →
        (response.body_json = none →
            (fetch_title env vid).1 = .error .malformedResponse)
        ∧ (∀ data, response.body_json = some data →
            (json_get data "title" = none →
                (fetch_title env vid).1 = .error .malformedResponse)
            ∧ (∀ t, json_get data "title" = some t →
                (fetch_title env vid).1 = .ok t)))
    ∧ (fetch_title env vid).2 = [Call.httpGet (oembed_url vid)] := by
  refine ⟨?_, ?_, rfl⟩
  · intro h
    simp [fetch_title, h]
  · intro response hr
    refine ⟨?_, ?_⟩
    · intro h
      simp [fetch_title, hr, h]
    · intro data hd
      refine ⟨?_, ?_⟩
      · intro h
        simp [fetch_title, hr, hd, h]
      · intro t h
        simp [fetch_title, hr, hd, h]

/-- The title stage's trace is its one HTTP GET. -/
theorem fetch_title_trace (env : Env) (vid : String) :
    (fetch_title env vid).2 = [Call.httpGet (oembed_url vid)] := rfl

/-- The transcript stage's trace is its one caption fetch. -/
theorem transcript_stage_trace (normalized : Bool) (env : Env) (vid : String) :
    (transcript_stage normalized env vid).2 = [Call.transcriptFetch vid] := rfl

/-- The question stage's trace is its one completion call. -/
theorem generate_question_trace (env : Env) (k : Nat) (g t : String) :
    (generate_question_from_title env k g t).2 =
      [Call.completion ⟨g, question_from_title_prompt t, 200⟩] := rfl

/-- The question stage's result is the completion endpoint's output. -/
theorem generate_question_result (env : Env) (k : Nat) (g t : String) :
    (generate_question_from_title env k g t).1 =
      env.completion k ⟨g, question_from_title_prompt t, 200⟩ := rfl

/-- C2: construction is all-or-nothing and ordered. An id-extraction failure
propagates before any network call; a title-fetch failure propagates after
only the HTTP GET; a transcript failure (for instance a video with no
captions) propagates with no completion call ever attempted; a question-
synthesis failure propagates; and a successful construction has made
exactly the three calls in order: title GET, transcript fetch, question
completion. -/
theorem init_all_or_nothing_ordered (normalized : Bool) (env : Env)
    (url key qm am : String) :
    (∀ e, env.video_id url = .error e →
        init normalized env url key qm am = (.error e, []))
    ∧ (∀ vid, env.video_id url = .ok vid →
        (∀ e, (fetch_title env vid).1 = .error e →
            init normalized env url key qm am =
              (.error e, [Call.httpGet (oembed_url vid)]))
        ∧ (∀ title, (fetch_title env vid).1 = .ok title →
            (∀ e, (transcript_stage normalized env vid).1 = .error e →
                (init normalized env url key qm am).1 = .error e
                ∧ ∀ req, Call.completion req ∉ (init normalized env url key qm am).2)
            ∧ (∀ tx, (transcript_stage normalized env vid).1 = .ok tx →
                ∀ e, env.completion 0 ⟨generate_question_default_model,
                      question_from_title_prompt title, 200⟩ = .error e →
                  (init normalized env url key qm am).1 = .error e)))
    ∧ (∀ s tr, init normalized env url key qm am = (.ok s, tr) →
        tr = [Call.httpGet (oembed_url s.video_id), Call.transcriptFetch s.video_id,
              Call.completion ⟨generate_question_default_model,
                question_from_title_prompt s.title, 200⟩]) := by
  refine ⟨?_, ?_, ?_⟩
  · intro e h
    simp [init, h]
  · intro vid hvid
    refine ⟨?_, ?_⟩
    · intro e he
      simp [init, hvid, he, fetch_title_trace]
    · intro title ht
      refine ⟨?_, ?_⟩
      · intro e he
        refine ⟨?_, ?_⟩
        · simp [init, hvid, ht, he]
        · intro req
          simp [init, hvid, ht, he, fetch_title_trace, transcript_stage_trace]
      · intro tx htx e he
        simp [init, hvid, ht, htx, generate_question_result, he]
  · intro s tr h
    simp only [init] at h
    cases hvid : env.video_id url with
    | error e => simp [hvid] at h
    | ok vid =>
      simp only [hvid] at h
      cases ht : (fetch_title env vid).1 with
      | error e => simp [ht] at h
      | ok title =>
        simp only [ht] at h
        cases htx : (transcript_stage normalized env vid).1 with
        | error e => simp [htx] at h
        | ok tx =>
          simp only [htx] at h
          cases hq : (generate_question_from_title env 0 generate_question_default_model title).1 with
          | error e => simp [hq] at h
          | ok q =>
            simp [hq, fetch_title_trace, transcript_stage_trace,
                  generate_question_trace] at h
            obtain ⟨hs, htr⟩ := h
            subst htr
            simp [← hs]

/-- C2, witness: over a concrete environment whose video has no captions,
construction fails with the transcript error and the trace contains no
completion call. -/
theorem init_all_or_nothing_ordered_witness :
    (init true envNC "u" "k" "q" "a").1 = .error .transcriptUnavailable
    ∧ Call.completion ⟨"text-davinci-003", question_from_title_prompt "T", 200⟩ ∉
        (init true envNC "u" "k" "q" "a").2 :=
  ⟨(((init_all_or_nothing_ordered true envNC "u" "k" "q" "a").2.1 "abc" rfl).2 "T"
      rfl).1 .transcriptUnavailable rfl |>.1,
   (((init_all_or_nothing_ordered true envNC "u" "k" "q" "a").2.1 "abc" rfl).2 "T"
      rfl).1 .transcriptUnavailable rfl |>.2 _⟩

/-- C3: the configured question model is dead configuration. Constructing
with `question_model = "text-curie-001"` still issues the question
completion with the hardcoded `"text-davinci-003"` (the default of the
private method's own parameter, which `__init__` calls with no argument),
even though the attribute stores `"text-curie-001"`. -/
theorem question_completion_ignores_configured_model :
    init false envOK "u" "k" "text-curie-001" "a" =
      (.ok ⟨"u", "k", "text-curie-001", "a", "abc", "T", "hello world", "out"⟩,
       traceOK)
    ∧ Call.completion ⟨"text-davinci-003", question_from_title_prompt "T", 200⟩ ∈ traceOK
    ∧ "text-davinci-003" ≠ "text-curie-001" := by
  refine ⟨rfl, ?_, by decide⟩
  simp [traceOK]

/-- C4: each answer invocation calls the completion endpoint with the
configured answer model, the prompt built from the stored transcript and
stored question, and a 100-token generation budget, and returns the
endpoint's generated text verbatim; the hypothesis restricts to sessions
that came out of a successful construction. -/
theorem answer_call_uses_configured_model_and_budget
    (env env0 : Env) (k : Nat) (v : ClickbaitVideo) (normalized : Bool)
    (url key qm am : String) (tr : List Call)
    (_hready : init normalized env0 url key qm am = (.ok v, tr)) :
    answer_title_question env k v =
      (env.completion k ⟨v.answer_model_type,
         answer_question_prompt v.transcript v.question, 100⟩,
       [Call.completion ⟨v.answer_model_type,
          answer_question_prompt v.transcript v.question, 100⟩], v) := rfl

/-- C4, witness: the concrete session built over `envOK`. -/
theorem answer_call_uses_configured_model_and_budget_witness :
    answer_title_question envOK 0 sessionOK =
      (envOK.completion 0 ⟨sessionOK.answer_model_type,
         answer_question_prompt sessionOK.transcript sessionOK.question, 100⟩,
       [Call.completion ⟨sessionOK.answer_model_type,
          answer_question_prompt sessionOK.transcript sessionOK.question, 100⟩],
       sessionOK) :=
  answer_call_uses_configured_model_and_budget envOK envOK 0 sessionOK false
    "u" "k" "q" "a" traceOK rfl

/-- C8: every answer invocation issues exactly one outbound completion call
(the recorded trace is the one call with the stored model, prompt and
budget), leaves the session unchanged, and is not memoized: over an
environment whose completion output depends on how many calls were made
before, two invocations on the same unchanged session return different
values. -/
theorem answer_not_memoized_no_mutation (env : Env) (k : Nat) (v : ClickbaitVideo) :
    (answer_title_question env k v).2.1.length = 1
    ∧ (answer_title_question env k v).2.1 =
        [Call.completion ⟨v.answer_model_type,
           answer_question_prompt v.transcript v.question, 100⟩]
    ∧ (answer_title_question env k v).2.2 = v
    ∧ (answer_title_question envDiff 0 sessionOK).1 ≠
        (answer_title_question envDiff 1 sessionOK).1 := by
  refine ⟨rfl, rfl, rfl, ?_⟩
  intro h
  have h2 : (Except.ok "first" : Except Err String) = Except.ok "second" := h
  injection h2 with h3
  exact absurd h3 (by decide)

/-- Forget the stored credential. -/
def scrub (v : ClickbaitVideo) : ClickbaitVideo := { v with api_key := "" }

/-- C10: the API credential has no effect on behaviour. Two constructions
differing only in the credential make identical outbound calls and produce
results identical up to the stored credential itself, and the answer
operation's result and outbound call do not depend on the stored
credential. -/
theorem api_key_no_observable_effect (normalized : Bool) (env : Env)
    (url qm am key1 key2 : String) :
    (init normalized env url key1 qm am).2 = (init normalized env url key2 qm am).2
    ∧ Except.map scrub (init normalized env url key1 qm am).1 =
        Except.map scrub (init normalized env url key2 qm am).1
    ∧ ∀ (k : Nat) (v : ClickbaitVideo) (x y : String),
        ((answer_title_question env k { v with api_key := x }).1,
         (answer_title_question env k { v with api_key := x }).2.1) =
        ((answer_title_question env k { v with api_key := y }).1,
         (answer_title_question env k { v with api_key := y }).2.1) := by
  refine ⟨?_, ?_, fun k v x y => rfl⟩ <;>
  · cases hvid : env.video_id url with
    | error e => simp [init, hvid]
    | ok vid =>
      cases ht : (fetch_title env vid).1 with
      | error e => simp [init, hvid, ht]
      | ok title =>
        cases htx : (transcript_stage normalized env vid).1 with
        | error e => simp [init, hvid, ht, htx]
        | ok tx =>
          cases hq : (generate_question_from_title env 0 generate_question_default_model title).1 with
          | error e => simp [init, hvid, ht, htx, hq]
          | ok q => simp [init, hvid, ht, htx, hq, Except.map, scrub]
